import Mathlib

/-!
Shallow embedding of the college-club backend (src/main.py, src/schemas.py).

The backend stores three MongoDB collections: `user`, `club`, `event`.
User documents are accessed field-by-field by the handlers, so they are
modelled as a structure whose fields are `Option`-valued where the code
reads them with `dict.get` (a `none` models a missing field).  Club and
event documents are only ever inserted and listed, never field-read, so
they are modelled as association lists (Python dicts in insertion order)
over a small value type `Val`.

Randomness (`secrets.token_urlsafe`), the SHA-256 digest and the salt from
the environment are external inputs; handlers take the freshly generated
token, the digest function and the salt as explicit parameters.

`HTTPException(status, detail)` raised before any database write is
modelled by returning `Except.error (status, detail)` together with the
unchanged state; every handler returns its new state explicitly.
-/

/-- A JSON/BSON-like value as stored in a document.  `oid n` models a
database-generated `ObjectId`, `vdate n` a datetime. -/
inductive Val where
  | vstr : String → Val
  | vbool : Bool → Val
  | vnull : Val
  | oid : Nat → Val
  | vdate : Nat → Val
  | vstrs : List String → Val
deriving DecidableEq, Repr

/-- A document: a Python dict in insertion order (keys unique in practice). -/
abbrev Doc := List (String × Val)

/-- Python `d.get k` on a dict: the value at the first occurrence of `k`. -/
def dget (d : Doc) (k : String) : Option Val :=
  (d.find? (fun kv => kv.1 == k)).map (fun kv => kv.2)

/-- Python `d[k] = v` on a dict: replace in place if the key exists,
otherwise append at the end. -/
def dictSet (d : Doc) (k : String) (v : Val) : Doc :=
  if (dget d k).isSome then
    d.map (fun kv => if kv.1 == k then (k, v) else kv)
  else
    d ++ [(k, v)]

/-- Python `d.pop k` on a dict: the removed value (the docs we pop from
always carry the key) and the remaining dict. -/
def dictPop (d : Doc) (k : String) : Val × Doc :=
  ((dget d k).getD Val.vnull, d.filter (fun kv => kv.1 ≠ k))

/-- Python `d.update(kvs)` on a dict. -/
def dictUpdate (d : Doc) (kvs : List (String × Val)) : Doc :=
  kvs.foldl (fun acc kv => dictSet acc kv.1 kv.2) d

/-- Python `str()` restricted to the values that reach it: a string is
itself, `None` prints as "None", booleans capitalised, an ObjectId as the
decimal rendering of its number (standing for the 24-hex-digit string). -/
def pyStr : Val → String
  | Val.vstr s => s
  | Val.vbool b => if b then "True" else "False"
  | Val.vnull => "None"
  | Val.oid n => toString n
  | Val.vdate n => toString n
  | Val.vstrs vs => toString vs

/-- Python `str(x)` for `x` an optional string field read with `dict.get`:
`str(None) = "None"`. -/
def pyStrOpt : Option String → String
  | some s => s
  | none => "None"

/-- A stored `user` document (src/schemas.py `User`); `uid` is the
database `_id`.  Fields the handlers read with `dict.get` are optional so
that a missing field is representable; `sessions` is the token array. -/
structure UserDoc where
  uid : Nat
  name : Option String
  email : Option String
  password_hash : Option String
  is_admin : Option Bool
  sessions : List String
deriving DecidableEq, Repr

/-- The database state: the three collections plus the supply of fresh
database ids (`nextId` is the next id the database will generate). -/
structure St where
  users : List UserDoc
  clubs : List Doc
  events : List Doc
  nextId : Nat
deriving DecidableEq, Repr

/-- Constant `SESSION_TTL_MINUTES = 60 * 24` (src/main.py line 30): defined and
never consulted by any handler below, exactly as in the source. -/
def SESSION_TTL_MINUTES : Nat := 60 * 24

/-- Helper `hash_password` (src/main.py lines 25-27): digest of "salt:password";
`sh` is the external SHA-256 hex digest, `salt` the `PASSWORD_SALT`
environment value (default "static_salt"). -/
def hash_password (sh : String → String) (salt : String) (password : String) : String :=
  sh (salt ++ ":" ++ password)

/-- Utility `get_user_by_email` (src/main.py lines 64-66):
`db["user"].find_one({"email": email})` — the first user document whose
`email` field equals the given string. -/
def get_user_by_email (st : St) (email : String) : Option UserDoc :=
  st.users.find? (fun u => u.email == some email)

/-- Utility `get_user_by_token` (src/main.py lines 68-72): `None` for a falsy
token, else `db["user"].find_one({"sessions": token})` — the first user
whose `sessions` array contains the token. -/
def get_user_by_token (st : St) (token : String) : Option UserDoc :=
  if token == "" then none
  else st.users.find? (fun u => u.sessions.contains token)

/-- Mongo `update_one` on the `user` collection: Mongo updates the first
document matching the filter. -/
def updateFirst (p : UserDoc → Bool) (f : UserDoc → UserDoc) : List UserDoc → List UserDoc
  | [] => []
  | u :: us => if p u then f u :: us else u :: updateFirst p f us

/-- Update `{"$push": {"sessions": token}}`: append the token to the array. -/
def pushSession (tok : String) (u : UserDoc) : UserDoc :=
  { u with sessions := u.sessions ++ [tok] }

/-- Update `{"$pull": {"sessions": token}}`: remove every element equal to the
token from the array. -/
def pullSession (tok : String) (u : UserDoc) : UserDoc :=
  { u with sessions := u.sessions.filter (fun s => s ≠ tok) }

/-- The `AuthResponse` model (src/main.py lines 56-60). -/
structure AuthResponse where
  token : String
  is_admin : Bool
  name : String
  email : String
deriving DecidableEq, Repr

/-- An HTTP error: status code and detail string. -/
abbrev HErr := Nat × String

/-- Handler `register` (src/main.py lines 92-109).  `ftok` is the token produced
by `new_session_token()`.  400 if the email exists; otherwise the user is
inserted with an empty `sessions` array and `is_admin` true exactly when
the collection was empty (`count_documents({}) == 0`), then the fresh
token is pushed onto the document with the inserted `_id`. -/
def register (sh : String → String) (salt : String) (ftok : String) (st : St)
    (name email password : String) : Except HErr AuthResponse × St :=
  if (get_user_by_email st email).isSome then
    (Except.error (400, "Email already registered"), st)
  else
    let is_first_user : Bool := st.users.length == 0
    let user_doc : UserDoc :=
      { uid := st.nextId
        name := some name
        email := some email
        password_hash := some (hash_password sh salt password)
        is_admin := some is_first_user
        sessions := [] }
    let users1 := st.users ++ [user_doc]
    let users2 := updateFirst (fun u => u.uid == st.nextId) (pushSession ftok) users1
    (Except.ok { token := ftok, is_admin := is_first_user, name := name, email := email },
     { st with users := users2, nextId := st.nextId + 1 })

/-- Handler `login` (src/main.py lines 111-118).  401 when no user has the email
or `user.get("password_hash")` differs from the hash of the password;
otherwise the fresh token is pushed onto that user's document and the
response echoes the stored fields (`dict.get` defaults). -/
def login (sh : String → String) (salt : String) (ftok : String) (st : St)
    (email password : String) : Except HErr AuthResponse × St :=
  match get_user_by_email st email with
  | none => (Except.error (401, "Invalid credentials"), st)
  | some u =>
    if u.password_hash = some (hash_password sh salt password) then
      (Except.ok { token := ftok, is_admin := u.is_admin.getD false,
                   name := u.name.getD "", email := u.email.getD "" },
       { st with users := updateFirst (fun v => v.uid == u.uid) (pushSession ftok) st.users })
    else
      (Except.error (401, "Invalid credentials"), st)

/-- Handler `logout` (src/main.py lines 120-125): look the user up by
`token or ""`, pull the token from that user's sessions when found, and
always answer `{"success": True}`. -/
def logout (st : St) (token : Option String) : Doc × St :=
  match get_user_by_token st (token.getD "") with
  | none => ([("success", Val.vbool true)], st)
  | some u =>
    ([("success", Val.vbool true)],
     { st with users := updateFirst (fun v => v.uid == u.uid)
                          (pullSession (token.getD "")) st.users })

/-- Modelled from the spec: `create_document` (the `database` module is
not under src/) inserts the document into the named collection — the
database generates a fresh `_id` placed first in the stored document —
and returns that id serialized to a string ("ids are database-generated
and serialized to strings for API responses"); the caller's dict is not
mutated.  Specialised here to the `club` and `event` collections via the
two handlers below. -/
def create_document_stored (d : Doc) (freshId : Nat) : Doc :=
  ("_id", Val.oid freshId) :: d

/-- Handler `create_club` (src/main.py lines 135-146): 403 unless the token
resolves to a user whose `is_admin` flag is truthy; otherwise insert the
club stamped with `str(user.get("email"))` and return the data with the
new id. -/
def create_club (st : St) (name : String) (description : Option String)
    (token : Option String) : Except HErr Doc × St :=
  match get_user_by_token st (token.getD "") with
  | none => (Except.error (403, "Admin only"), st)
  | some u =>
    if u.is_admin.getD false then
      let data : Doc :=
        [("name", Val.vstr name),
         ("description", (description.map Val.vstr).getD Val.vnull),
         ("created_by", Val.vstr (pyStrOpt u.email))]
      (Except.ok (("id", Val.vstr (toString st.nextId)) :: data),
       { st with clubs := st.clubs ++ [create_document_stored data st.nextId],
                 nextId := st.nextId + 1 })
    else
      (Except.error (403, "Admin only"), st)

/-- Handler `create_event` (src/main.py lines 156-169): same gate as
`create_club`, inserting into the `event` collection. -/
def create_event (st : St) (title : String) (description : Option String)
    (date : Nat) (club_id : Option String)
    (token : Option String) : Except HErr Doc × St :=
  match get_user_by_token st (token.getD "") with
  | none => (Except.error (403, "Admin only"), st)
  | some u =>
    if u.is_admin.getD false then
      let data : Doc :=
        [("title", Val.vstr title),
         ("description", (description.map Val.vstr).getD Val.vnull),
         ("date", Val.vdate date),
         ("club_id", (club_id.map Val.vstr).getD Val.vnull),
         ("created_by", Val.vstr (pyStrOpt u.email))]
      (Except.ok (("id", Val.vstr (toString st.nextId)) :: data),
       { st with events := st.events ++ [create_document_stored data st.nextId],
                 nextId := st.nextId + 1 })
    else
      (Except.error (403, "Admin only"), st)

/-- Renaming `it["id"] = str(it.pop("_id"))` applied to one listed document
(src/main.py lines 131-132 and 152-153). -/
def popRenameId (d : Doc) : Doc :=
  let p := dictPop d "_id"
  dictSet p.2 "id" (Val.vstr (pyStr p.1))

/-- Handler `list_clubs` (src/main.py lines 128-133); `get_documents("club")` is
modelled from the spec as returning every stored document of the
collection ("findAll(collection) -> sequence of documents"). -/
def list_clubs (st : St) : List Doc :=
  st.clubs.map popRenameId

/-- Handler `list_events` (src/main.py lines 149-154). -/
def list_events (st : St) : List Doc :=
  st.events.map popRenameId

/-- Modelled from the spec: the database handle of the missing `database`
module as seen by `GET /test` — whether the handle is truthy, whether
`DATABASE_URL` is set, the database name, and the outcome of
`list_collection_names()` (a list of names, or the message of the raised
exception). -/
structure DbEnv where
  dbAvail : Bool
  urlSet : Bool
  dbName : String
  listCollections : Except String (List String)
deriving Repr

/-- Handler `test_database` (src/main.py lines 171-185): start from
`{"backend": "✅ Running"}`; inside `try`, compute the collection names
(`[]` when the handle is falsy, so only a truthy handle can raise) and
update with the five diagnostic fields; on an exception update with the
error string truncated to 50 characters.  Always returns a document. -/
def test_database (env : DbEnv) : Doc :=
  let response : Doc := [("backend", Val.vstr "✅ Running")]
  match (if env.dbAvail then env.listCollections else Except.ok []) with
  | Except.error e =>
      dictUpdate response [("database", Val.vstr ("❌ Error: " ++ e.take 50))]
  | Except.ok collections =>
      dictUpdate response
        [("database", Val.vstr (if env.dbAvail then "✅ Connected & Working" else "❌ Not Available")),
         ("database_url", Val.vstr (if env.urlSet then "✅ Set" else "❌ Not Set")),
         ("database_name", if env.dbAvail then Val.vstr env.dbName else Val.vnull),
         ("connection_status", Val.vstr (if env.dbAvail then "Connected" else "Not Connected")),
         ("collections", Val.vstrs (collections.take 10))]

/-- One inbound request, with the externally produced fresh token where
the handler issues one. -/
inductive Op where
  | opRegister (name email password ftok : String)
  | opLogin (email password ftok : String)
  | opLogout (token : Option String)
  | opCreateClub (name : String) (description : Option String) (token : Option String)
  | opCreateEvent (title : String) (description : Option String) (date : Nat)
      (club_id : Option String) (token : Option String)
  | opListClubs
  | opListEvents
  | opReadRoot
  | opTest (env : DbEnv)
deriving Repr

/-- The state transition of one request: the state component of the
corresponding handler (read-only endpoints leave the state as is). -/
def step (sh : String → String) (salt : String) (op : Op) (st : St) : St :=
  match op with
  | Op.opRegister n e p f => (register sh salt f st n e p).2
  | Op.opLogin e p f => (login sh salt f st e p).2
  | Op.opLogout t => (logout st t).2
  | Op.opCreateClub n d t => (create_club st n d t).2
  | Op.opCreateEvent ti d da c t => (create_event st ti d da c t).2
  | Op.opListClubs => st
  | Op.opListEvents => st
  | Op.opReadRoot => st
  | Op.opTest _ => st

/-- A token is live: some stored user's sessions array contains it. -/
def tokenPresent (st : St) (tok : String) : Prop :=
  ∃ u ∈ st.users, tok ∈ u.sessions

/-! ### Helper lemmas about the embedded database operations -/

lemma find?_append_cons {α : Type} (q : α → Bool) (l1 : List α) (u : α) (l2 : List α)
    (h1 : ∀ v ∈ l1, q v = false) (hu : q u = true) :
    (l1 ++ u :: l2).find? q = some u := by
  induction l1 with
  | nil => simp [List.find?_cons_of_pos, hu]
  | cons a l ih =>
    have ha : q a = false := h1 a (by simp)
    simpa [List.find?_cons_of_neg, ha] using ih (fun v hv => h1 v (by simp [hv]))

lemma updateFirst_append (p : UserDoc → Bool) (f : UserDoc → UserDoc)
    (l1 : List UserDoc) (u : UserDoc) (l2 : List UserDoc)
    (h1 : ∀ v ∈ l1, p v = false) (hu : p u = true) :
    updateFirst p f (l1 ++ u :: l2) = l1 ++ f u :: l2 := by
  induction l1 with
  | nil => simp [updateFirst, hu]
  | cons a l ih =>
    have ha : p a = false := h1 a (by simp)
    simp [updateFirst, ha]
    exact ih (fun v hv => h1 v (by simp [hv]))

lemma updateFirst_map_fixed {β : Type} (g : UserDoc → β) (p : UserDoc → Bool)
    (f : UserDoc → UserDoc) (hf : ∀ u, g (f u) = g u) (l : List UserDoc) :
    (updateFirst p f l).map g = l.map g := by
  induction l with
  | nil => rfl
  | cons a l ih =>
    by_cases ha : p a
    · simp [updateFirst, ha, hf]
    · simp [updateFirst, ha, ih]

lemma sessions_present_updateFirst (p : UserDoc → Bool) (f : UserDoc → UserDoc) (tok : String)
    (hf : ∀ u, tok ∈ u.sessions → tok ∈ (f u).sessions) (l : List UserDoc)
    (h : ∃ u ∈ l, tok ∈ u.sessions) : ∃ u ∈ updateFirst p f l, tok ∈ u.sessions := by
  induction l with
  | nil => exact absurd h (by simp)
  | cons a l ih =>
    by_cases ha : p a
    · rcases h with ⟨u, hu, htok⟩
      rcases List.mem_cons.mp hu with rfl | hmem
      · exact ⟨f u, by simp [updateFirst, ha], hf u htok⟩
      · exact ⟨u, by simp [updateFirst, ha, hmem], htok⟩
    · rcases h with ⟨u, hu, htok⟩
      rcases List.mem_cons.mp hu with rfl | hmem
      · exact ⟨u, by simp [updateFirst, ha], htok⟩
      · rcases ih ⟨u, hmem, htok⟩ with ⟨w, hw, hwtok⟩
        exact ⟨w, by simp [updateFirst, ha, hw], hwtok⟩

lemma mem_sessions_pushSession (tok t : String) (u : UserDoc)
    (h : tok ∈ u.sessions) : tok ∈ (pushSession t u).sessions := by
  simp [pushSession, h]

lemma mem_sessions_pullSession (tok t : String) (u : UserDoc)
    (hne : tok ≠ t) (h : tok ∈ u.sessions) : tok ∈ (pullSession t u).sessions := by
  simp [pullSession, List.mem_filter, h, hne]

lemma dget_filter_self (d : Doc) (k : String) :
    dget (d.filter (fun kv => kv.1 ≠ k)) k = none := by
  have : (d.filter (fun kv => kv.1 ≠ k)).find? (fun kv => kv.1 == k) = none := by
    rw [List.find?_eq_none]
    intro kv hkv
    have := (List.mem_filter.mp hkv).2
    simp only [decide_eq_true_eq] at this
    simp [this]
  simp [dget, this]

lemma dget_filter_other (d : Doc) (k k' : String) (h : k' ≠ k) :
    dget (d.filter (fun kv => kv.1 ≠ k)) k' = dget d k' := by
  induction d with
  | nil => rfl
  | cons kv d ih =>
    by_cases hk : kv.1 = k
    · have hk' : (kv.1 == k') = false := by
        simp [hk]
        exact fun he => h he.symm
      simp only [List.filter_cons, hk, dget]
      simp only [decide_eq_true_eq]
      rw [if_neg (by simp [hk])]
      simp [List.find?_cons_of_neg, hk', dget] at ih ⊢
      exact ih
    · simp only [List.filter_cons, decide_eq_true_eq]
      rw [if_pos hk]
      by_cases hk2 : kv.1 = k'
      · simp [dget, List.find?_cons_of_pos, hk2]
      · have : (kv.1 == k') = false := by simp [hk2]
        simp [dget, List.find?_cons_of_neg, this] at ih ⊢
        exact ih

lemma dget_map_replace_self (d : Doc) (k : String) (v : Val) (w : Val)
    (hw : dget d k = some w) :
    dget (d.map (fun kv => if kv.1 == k then (k, v) else kv)) k = some v := by
  induction d with
  | nil => simp [dget] at hw
  | cons kv d ih =>
    by_cases hk : kv.1 = k
    · simp [dget, List.find?_cons_of_pos, hk]
    · have hne : (kv.1 == k) = false := by simp [hk]
      simp only [List.map_cons, hne, if_neg, Bool.false_eq_true, not_false_eq_true]
      have hw' : dget d k = some w := by
        simpa [dget, List.find?_cons_of_neg, hne] using hw
      simpa [dget, List.find?_cons_of_neg, hne] using ih hw'

lemma dget_append_single_self (d : Doc) (k : String) (v : Val)
    (h : dget d k = none) :
    dget (d ++ [(k, v)]) k = some v := by
  induction d with
  | nil => simp [dget, List.find?_cons_of_pos]
  | cons kv d ih =>
    by_cases hk : kv.1 = k
    · simp [dget, List.find?_cons_of_pos, hk] at h
    · have hne : (kv.1 == k) = false := by simp [hk]
      have h' : dget d k = none := by
        simpa [dget, List.find?_cons_of_neg, hne] using h
      simpa [dget, List.find?_cons_of_neg, hne] using ih h'

lemma dget_dictSet_self (d : Doc) (k : String) (v : Val) :
    dget (dictSet d k v) k = some v := by
  unfold dictSet
  by_cases h : (dget d k).isSome
  · rcases Option.isSome_iff_exists.mp h with ⟨w, hw⟩
    rw [if_pos h]
    exact dget_map_replace_self d k v w hw
  · rw [if_neg h]
    exact dget_append_single_self d k v (Option.not_isSome_iff_eq_none.mp h)

lemma dget_map_replace_other (d : Doc) (k k' : String) (v : Val) (h : k' ≠ k) :
    dget (d.map (fun kv => if kv.1 == k then (k, v) else kv)) k' = dget d k' := by
  induction d with
  | nil => rfl
  | cons kv d ih =>
    by_cases hk : kv.1 = k
    · have h1 : ((k : String) == k') = false := by
        simp only [beq_eq_false_iff_ne, ne_eq]
        exact fun he => h he.symm
      have h2 : (kv.1 == k') = false := by
        simp only [beq_eq_false_iff_ne, ne_eq, hk]
        exact fun he => h he.symm
      have hkk : (kv.1 == k) = true := by simp [hk]
      simp only [List.map_cons, hkk, if_pos]
      rw [dget, dget, List.find?_cons_of_neg _ (by simp [h1]),
          List.find?_cons_of_neg _ (by simp [h2])]
      exact ih
    · have hne : (kv.1 == k) = false := by simp [hk]
      simp only [List.map_cons, hne, Bool.false_eq_true, if_neg, not_false_eq_true]
      by_cases hk2 : kv.1 = k'
      · rw [dget, dget, List.find?_cons_of_pos _ (by simp [hk2]),
            List.find?_cons_of_pos _ (by simp [hk2])]
      · rw [dget, dget, List.find?_cons_of_neg _ (by simp [hk2]),
            List.find?_cons_of_neg _ (by simp [hk2])]
        exact ih

lemma dget_append_single_other (d : Doc) (k k' : String) (v : Val) (h : k' ≠ k) :
    dget (d ++ [(k, v)]) k' = dget d k' := by
  induction d with
  | nil =>
    have h1 : ((k : String) == k') = false := by
      simp only [beq_eq_false_iff_ne, ne_eq]
      exact fun he => h he.symm
    simp [dget, List.find?, h1]
  | cons kv d ih =>
    by_cases hk2 : kv.1 = k'
    · rw [List.cons_append, dget, dget, List.find?_cons_of_pos _ (by simp [hk2]),
          List.find?_cons_of_pos _ (by simp [hk2])]
    · rw [List.cons_append, dget, dget, List.find?_cons_of_neg _ (by simp [hk2]),
          List.find?_cons_of_neg _ (by simp [hk2])]
      exact ih

lemma dget_dictSet_other (d : Doc) (k k' : String) (v : Val) (h : k' ≠ k) :
    dget (dictSet d k v) k' = dget d k' := by
  unfold dictSet
  by_cases hs : (dget d k).isSome
  · rw [if_pos hs]
    exact dget_map_replace_other d k k' v h
  · rw [if_neg hs]
    exact dget_append_single_other d k k' v h

lemma popRenameId_spec (d : Doc) (v : Val) (hv : dget d "_id" = some v) :
    dget (popRenameId d) "_id" = none ∧
    dget (popRenameId d) "id" = some (Val.vstr (pyStr v)) ∧
    ∀ k, k ≠ "_id" → k ≠ "id" → dget (popRenameId d) k = dget d k := by
  unfold popRenameId dictPop
  refine ⟨?_, ?_, ?_⟩
  · rw [dget_dictSet_other _ _ _ _ (by decide)]
    exact dget_filter_self d "_id"
  · rw [hv]
    exact dget_dictSet_self _ "id" _
  · intro k hk1 hk2
    rw [dget_dictSet_other _ _ _ _ hk2]
    exact dget_filter_other d "_id" k hk1

/-! ### Sample states used by the witnesses -/

/-- The empty database. -/
def st0 : St := { users := [], clubs := [], events := [], nextId := 0 }

/-- One admin user holding one session token. -/
def u1 : UserDoc :=
  { uid := 0, name := some "Ann", email := some "ann@club.io",
    password_hash := some "static_salt:pw1", is_admin := some true,
    sessions := ["tokA", "tokB"] }

/-- A user document with no `is_admin` field. -/
def u2 : UserDoc :=
  { uid := 1, name := some "Bob", email := some "bob@club.io",
    password_hash := some "static_salt:pw2", is_admin := none,
    sessions := ["tokC"] }

/-- A database holding `u1` and `u2`. -/
def st1 : St := { users := [u1, u2], clubs := [], events := [], nextId := 2 }

/-! ### Claim theorems -/

/-- C1: a successful registration (fresh email) creates a user whose
`is_admin` flag — both in the stored document and in the response — is
true exactly when the user collection was empty at the time, i.e. the
first-ever registration yields an admin and every registration against a
non-empty collection yields a non-admin. -/
theorem register_admin_iff_first (sh : String → String) (salt ftok : String) (st : St)
    (name email password : String)
    (hnew : get_user_by_email st email = none) :
    ∃ resp st', register sh salt ftok st name email password = (Except.ok resp, st') ∧
      resp.is_admin = st.users.isEmpty ∧
      st'.users.map (fun u => (u.email, u.is_admin)) =
        st.users.map (fun u => (u.email, u.is_admin)) ++
          [(some email, some st.users.isEmpty)] := by
  have hiff : (st.users.length == 0) = st.users.isEmpty := by cases st.users <;> rfl
  have hreg : register sh salt ftok st name email password =
      (Except.ok { token := ftok, is_admin := st.users.length == 0,
                   name := name, email := email },
       { st with
           users := updateFirst (fun u => u.uid == st.nextId) (pushSession ftok)
             (st.users ++
               [{ uid := st.nextId, name := some name, email := some email,
                  password_hash := some (hash_password sh salt password),
                  is_admin := some (st.users.length == 0), sessions := [] }]),
           nextId := st.nextId + 1 }) := by
    rw [register, hnew]
    rfl
  refine ⟨_, _, hreg, hiff, ?_⟩
  dsimp only
  rw [updateFirst_map_fixed (fun u => (u.email, u.is_admin))
    (fun u => u.uid == st.nextId) (pushSession ftok) (fun u => rfl)]
  rw [← hiff]
  simp

/-- C1 witness: the very first registration on the empty database is an
admin. -/
theorem register_admin_iff_first_witness :
    get_user_by_email st0 "ann@club.io" = none ∧
    (∃ resp st', register (fun s => s) "static_salt" "tokA" st0 "Ann" "ann@club.io" "pw1" =
        (Except.ok resp, st') ∧
      resp.is_admin = st0.users.isEmpty ∧
      st'.users.map (fun u => (u.email, u.is_admin)) =
        st0.users.map (fun u => (u.email, u.is_admin)) ++
          [(some "ann@club.io", some st0.users.isEmpty)]) :=
  ⟨rfl, register_admin_iff_first (fun s => s) "static_salt" "tokA" st0 "Ann" "ann@club.io" "pw1" rfl⟩

/-- C4: registering an email that already exists answers 400 "Email
already registered" and returns the state completely unchanged — in
particular no user record and no sessions list is touched. -/
theorem register_duplicate_email_400 (sh : String → String) (salt ftok : String) (st : St)
    (name email password : String)
    (hex : (get_user_by_email st email).isSome = true) :
    register sh salt ftok st name email password =
      (Except.error (400, "Email already registered"), st) := by
  rw [register, hex]
  simp

/-- C4 witness: re-registering `ann@club.io` against `st1` fails with 400
and leaves the database exactly as it was. -/
theorem register_duplicate_email_400_witness :
    (get_user_by_email st1 "ann@club.io").isSome = true ∧
    register (fun s => s) "static_salt" "tokZ" st1 "Imp" "ann@club.io" "x" =
      (Except.error (400, "Email already registered"), st1) :=
  ⟨rfl, register_duplicate_email_400 (fun s => s) "static_salt" "tokZ" st1 "Imp" "ann@club.io" "x" rfl⟩

/-- C9: a successful registration appends exactly one user document, whose
sessions list holds exactly one token, and that token is the one returned
in the response (the document is inserted with an empty sessions array and
a single push follows). -/
theorem register_single_session (sh : String → String) (salt ftok : String) (st : St)
    (name email password : String)
    (hnew : get_user_by_email st email = none)
    (hfresh : ∀ u ∈ st.users, u.uid ≠ st.nextId) :
    ∃ resp st', register sh salt ftok st name email password = (Except.ok resp, st') ∧
      resp.token = ftok ∧
      st'.users = st.users ++
        [{ uid := st.nextId, name := some name, email := some email,
           password_hash := some (hash_password sh salt password),
           is_admin := some (st.users.length == 0), sessions := [ftok] }] := by
  have hreg : register sh salt ftok st name email password =
      (Except.ok { token := ftok, is_admin := st.users.length == 0,
                   name := name, email := email },
       { st with
           users := updateFirst (fun u => u.uid == st.nextId) (pushSession ftok)
             (st.users ++
               [{ uid := st.nextId, name := some name, email := some email,
                  password_hash := some (hash_password sh salt password),
                  is_admin := some (st.users.length == 0), sessions := [] }]),
           nextId := st.nextId + 1 }) := by
    rw [register, hnew]
    rfl
  refine ⟨_, _, hreg, rfl, ?_⟩
  have hupd := updateFirst_append (fun u => u.uid == st.nextId) (pushSession ftok)
    st.users
    { uid := st.nextId, name := some name, email := some email,
      password_hash := some (hash_password sh salt password),
      is_admin := some (st.users.length == 0), sessions := [] }
    []
    (fun v hv => by simp [hfresh v hv]) (by simp)
  simpa [pushSession] using hupd

/-- C9 witness: registering a second user in `st1` stores it with the
single-token sessions list `["tokD"]`, the token the response carries. -/
theorem register_single_session_witness :
    get_user_by_email st1 "cle@club.io" = none ∧
    (∀ u ∈ st1.users, u.uid ≠ st1.nextId) ∧
    (∃ resp st', register (fun s => s) "static_salt" "tokD" st1 "Cleo" "cle@club.io" "pw3" =
        (Except.ok resp, st') ∧
      resp.token = "tokD" ∧
      st'.users = st1.users ++
        [{ uid := st1.nextId, name := some "Cleo", email := some "cle@club.io",
           password_hash := some (hash_password (fun s => s) "static_salt" "pw3"),
           is_admin := some (st1.users.length == 0), sessions := ["tokD"] }]) :=
  ⟨by decide, by decide,
   register_single_session (fun s => s) "static_salt" "tokD" st1 "Cleo" "cle@club.io" "pw3"
     (by decide) (by decide)⟩

/-- C3: login answers 401 "Invalid credentials" exactly when no user
document carries the email or the user found for it stores a
`password_hash` different from the hash of the supplied password; a 401
leaves the state untouched.  Otherwise the fresh token is appended to that
user's sessions list and the response carries that token together with the
stored flags. -/
theorem login_spec (sh : String → String) (salt ftok : String) (st : St)
    (email password : String) :
    ((login sh salt ftok st email password).1 = Except.error (401, "Invalid credentials") ↔
      ∀ u, get_user_by_email st email = some u →
        u.password_hash ≠ some (hash_password sh salt password)) ∧
    ((login sh salt ftok st email password).1 = Except.error (401, "Invalid credentials") →
      (login sh salt ftok st email password).2 = st) ∧
    (∀ l1 u l2, st.users = l1 ++ u :: l2 →
      (∀ v ∈ l1, v.email ≠ some email) → u.email = some email →
      (∀ v ∈ l1, v.uid ≠ u.uid) →
      u.password_hash = some (hash_password sh salt password) →
      login sh salt ftok st email password =
        (Except.ok { token := ftok, is_admin := u.is_admin.getD false,
                     name := u.name.getD "", email := u.email.getD "" },
         { st with users := l1 ++ pushSession ftok u :: l2 })) := by
  refine ⟨?_, ?_, ?_⟩
  · cases hfind : get_user_by_email st email with
    | none =>
      have hlog : (login sh salt ftok st email password).1 =
          Except.error (401, "Invalid credentials") := by
        simp [login, hfind]
      rw [hlog]
      constructor
      · intro _ u hu
        cases hu
      · intro _
        rfl
    | some u =>
      by_cases hpw : u.password_hash = some (hash_password sh salt password)
      · have hlog : (login sh salt ftok st email password).1 =
            Except.ok { token := ftok, is_admin := u.is_admin.getD false,
                        name := u.name.getD "", email := u.email.getD "" } := by
          simp [login, hfind, hpw]
        rw [hlog]
        constructor
        · intro h
          cases h
        · intro h
          exact absurd hpw (h u rfl)
      · have hlog : (login sh salt ftok st email password).1 =
            Except.error (401, "Invalid credentials") := by
          simp [login, hfind, hpw]
        rw [hlog]
        constructor
        · intro _ v hv
          cases hv
          exact hpw
        · intro _
          rfl
  · intro herr
    cases hfind : get_user_by_email st email with
    | none => simp [login, hfind]
    | some u =>
      by_cases hpw : u.password_hash = some (hash_password sh salt password)
      · have hlog : (login sh salt ftok st email password).1 =
            Except.ok { token := ftok, is_admin := u.is_admin.getD false,
                        name := u.name.getD "", email := u.email.getD "" } := by
          simp [login, hfind, hpw]
        rw [hlog] at herr
        cases herr
      · simp [login, hfind, hpw]
  · intro l1 u l2 hsplit h1 hu huid hpw
    have hfind : get_user_by_email st email = some u := by
      rw [get_user_by_email, hsplit]
      exact find?_append_cons _ l1 u l2 (fun v hv => by simp [h1 v hv]) (by simp [hu])
    have hupd : updateFirst (fun v => v.uid == u.uid) (pushSession ftok) st.users =
        l1 ++ pushSession ftok u :: l2 := by
      rw [hsplit]
      exact updateFirst_append _ _ l1 u l2 (fun v hv => by simp [huid v hv]) (by simp)
    simp only [login, hfind, if_pos hpw, hupd]

/-- C3 witness: in `st1`, logging in as `ann@club.io` with the right
password appends the fresh token `tokN` to Ann's sessions, and the
response repeats the stored admin flag, name and email. -/
theorem login_spec_witness :
    st1.users = [] ++ u1 :: [u2] ∧ u1.email = some "ann@club.io" ∧
    u1.password_hash = some (hash_password (fun s => s) "static_salt" "pw1") ∧
    login (fun s => s) "static_salt" "tokN" st1 "ann@club.io" "pw1" =
      (Except.ok { token := "tokN", is_admin := u1.is_admin.getD false,
                   name := u1.name.getD "", email := u1.email.getD "" },
       { st1 with users := [] ++ pushSession "tokN" u1 :: [u2] }) :=
  ⟨rfl, rfl, rfl,
   (login_spec (fun s => s) "static_salt" "tokN" st1 "ann@club.io" "pw1").2.2
     [] u1 [u2] rfl (by simp) rfl (by simp) rfl⟩

/-- C5: logout always answers `{"success": true}`; when the token (after
the `or ""` defaulting) matches no user's sessions array the state is
unchanged, and when a non-empty token is contained in the sessions array
of a first matching user, exactly the occurrences of that token are
removed from that user's array — every other token of that user survives —
and every other user record and collection is untouched. -/
theorem logout_spec (st : St) (token : Option String) :
    (logout st token).1 = [("success", Val.vbool true)] ∧
    (get_user_by_token st (token.getD "") = none → (logout st token).2 = st) ∧
    (∀ t l1 u l2, token = some t → t ≠ "" → st.users = l1 ++ u :: l2 →
      (∀ v ∈ l1, t ∉ v.sessions) → t ∈ u.sessions → (∀ v ∈ l1, v.uid ≠ u.uid) →
      (logout st token).2 = { st with users := l1 ++ pullSession t u :: l2 } ∧
      t ∉ (pullSession t u).sessions ∧
      (∀ s ∈ u.sessions, s ≠ t → s ∈ (pullSession t u).sessions)) := by
  refine ⟨?_, ?_, ?_⟩
  · cases hfind : get_user_by_token st (token.getD "") <;> simp [logout, hfind]
  · intro hfind
    simp [logout, hfind]
  · intro t l1 u l2 htok ht hsplit h1 hu huid
    subst htok
    have htne : ((t : String) == "") = false := by simp [ht]
    have hfind : get_user_by_token st ((some t).getD "") = some u := by
      show get_user_by_token st t = some u
      rw [get_user_by_token, htne]
      simp only [Bool.false_eq_true, if_false, hsplit]
      exact find?_append_cons _ l1 u l2
        (fun v hv => by
          rw [Bool.eq_false_iff]
          intro hc
          exact h1 v hv (List.elem_iff.mp hc))
        (List.elem_iff.mpr hu)
    have hupd : updateFirst (fun v => v.uid == u.uid) (pullSession ((some t).getD ""))
        st.users = l1 ++ pullSession t u :: l2 := by
      rw [hsplit]
      exact updateFirst_append _ _ l1 u l2 (fun v hv => by simp [huid v hv]) (by simp)
    refine ⟨?_, ?_, ?_⟩
    · simp only [logout, hfind, hupd]
    · simp [pullSession, List.mem_filter]
    · intro s hs hne
      simp [pullSession, List.mem_filter, hs, hne]

/-- C5 witness: in `st1`, logging out with `tokA` removes exactly `tokA`
from Ann's sessions (`tokB` survives), leaves Bob untouched, and the
response is `{"success": true}`. -/
theorem logout_spec_witness :
    (logout st1 (some "tokA")).1 = [("success", Val.vbool true)] ∧
    st1.users = [] ++ u1 :: [u2] ∧ "tokA" ∈ u1.sessions ∧
    (logout st1 (some "tokA")).2 = { st1 with users := [] ++ pullSession "tokA" u1 :: [u2] } ∧
    "tokA" ∉ (pullSession "tokA" u1).sessions ∧
    "tokB" ∈ (pullSession "tokA" u1).sessions :=
  ⟨(logout_spec st1 (some "tokA")).1, rfl, by decide,
   ((logout_spec st1 (some "tokA")).2.2 "tokA" [] u1 [u2] rfl (by decide) rfl
      (by simp) (by decide) (by simp)).1,
   ((logout_spec st1 (some "tokA")).2.2 "tokA" [] u1 [u2] rfl (by decide) rfl
      (by simp) (by decide) (by simp)).2.1,
   ((logout_spec st1 (some "tokA")).2.2 "tokA" [] u1 [u2] rfl (by decide) rfl
      (by simp) (by decide) (by simp)).2.2 "tokB" (by decide) (by decide)⟩

/-- C2: POST /api/clubs with a missing token, an unknown token, or a token
of a user whose admin flag is not truthy answers 403 "Admin only" with the
state unchanged (no document created); with the token of an admin user
whose stored email is `e`, exactly one club document is appended — the
request's name and description stamped with `created_by = e` — and the
response is that record preceded by the new database id rendered as a
string. -/
theorem create_club_spec (st : St) (name : String) (description : Option String)
    (token : Option String) :
    ((get_user_by_token st (token.getD "") = none ∨
        ∃ u, get_user_by_token st (token.getD "") = some u ∧ u.is_admin.getD false = false) →
      create_club st name description token = (Except.error (403, "Admin only"), st)) ∧
    (∀ u e, get_user_by_token st (token.getD "") = some u → u.is_admin = some true →
      u.email = some e →
      create_club st name description token =
        (Except.ok
          [("id", Val.vstr (toString st.nextId)), ("name", Val.vstr name),
           ("description", (description.map Val.vstr).getD Val.vnull),
           ("created_by", Val.vstr e)],
         { st with
             clubs := st.clubs ++
               [[("_id", Val.oid st.nextId), ("name", Val.vstr name),
                 ("description", (description.map Val.vstr).getD Val.vnull),
                 ("created_by", Val.vstr e)]],
             nextId := st.nextId + 1 })) := by
  constructor
  · rintro (hnone | ⟨u, hu, hadm⟩)
    · simp [create_club, hnone]
    · simp [create_club, hu, hadm]
  · intro u e hu hadm he
    simp [create_club, hu, hadm, he, pyStrOpt, create_document_stored]

/-- C2 witness: with admin Ann's token `tokA`, creating the club "Chess"
in `st1` appends exactly one stored document stamped with her email and
returns it with the fresh id; the theorem's 403 half is exercised with
Bob's token `tokC` (no admin flag). -/
theorem create_club_spec_witness :
    get_user_by_token st1 ((some "tokA").getD "") = some u1 ∧
    u1.is_admin = some true ∧ u1.email = some "ann@club.io" ∧
    create_club st1 "Chess" (some "Board games") (some "tokA") =
      (Except.ok
        [("id", Val.vstr (toString st1.nextId)), ("name", Val.vstr "Chess"),
         ("description", ((some "Board games").map Val.vstr).getD Val.vnull),
         ("created_by", Val.vstr "ann@club.io")],
       { st1 with
           clubs := st1.clubs ++
             [[("_id", Val.oid st1.nextId), ("name", Val.vstr "Chess"),
               ("description", ((some "Board games").map Val.vstr).getD Val.vnull),
               ("created_by", Val.vstr "ann@club.io")]],
           nextId := st1.nextId + 1 }) ∧
    (get_user_by_token st1 ((some "tokC").getD "") = some u2 ∧ u2.is_admin.getD false = false) ∧
    create_club st1 "Chess" none (some "tokC") = (Except.error (403, "Admin only"), st1) :=
  ⟨by decide, rfl, rfl,
   (create_club_spec st1 "Chess" (some "Board games") (some "tokA")).2 u1 "ann@club.io"
     (by decide) rfl rfl,
   ⟨by decide, rfl⟩,
   (create_club_spec st1 "Chess" none (some "tokC")).1 (Or.inr ⟨u2, by decide, rfl⟩)⟩

/-- C10: a stored user document lacking the `is_admin` field is treated as
non-admin everywhere the flag is read — its token is refused with 403 by
both POST /api/clubs and POST /api/events, and a successful login for that
user reports `is_admin = false`. -/
theorem missing_admin_flag (st : St) (t : String) (u : UserDoc)
    (htok : get_user_by_token st t = some u) (hadm : u.is_admin = none) :
    (∀ name descr,
      create_club st name descr (some t) = (Except.error (403, "Admin only"), st)) ∧
    (∀ title descr date cid,
      create_event st title descr date cid (some t) =
        (Except.error (403, "Admin only"), st)) ∧
    (∀ sh salt ftok email password resp st',
      get_user_by_email st email = some u →
      login sh salt ftok st email password = (Except.ok resp, st') →
      resp.is_admin = false) := by
  refine ⟨?_, ?_, ?_⟩
  · intro name descr
    simp [create_club, htok, hadm]
  · intro title descr date cid
    simp [create_event, htok, hadm]
  · intro sh salt ftok email password resp st' hemail hok
    by_cases hpw : u.password_hash = some (hash_password sh salt password)
    · have hlog : login sh salt ftok st email password =
          (Except.ok { token := ftok, is_admin := u.is_admin.getD false,
                       name := u.name.getD "", email := u.email.getD "" },
           { st with users := updateFirst (fun v => v.uid == u.uid) (pushSession ftok) st.users }) := by
        simp [login, hemail, hpw]
      rw [hlog] at hok
      injection hok with h1 h2
      injection h1 with h3
      rw [← h3, hadm]
      rfl
    · have hlog : login sh salt ftok st email password =
          (Except.error (401, "Invalid credentials"), st) := by
        simp [login, hemail, hpw]
      rw [hlog] at hok
      injection hok with h1 h2
      exact Except.noConfusion h1

/-- C10 witness: Bob (`u2`, no `is_admin` field) is refused by club and
event creation via his token `tokC`, and his successful login reports
`is_admin = false`. -/
theorem missing_admin_flag_witness :
    get_user_by_token st1 "tokC" = some u2 ∧ u2.is_admin = none ∧
    create_club st1 "X" none (some "tokC") = (Except.error (403, "Admin only"), st1) ∧
    create_event st1 "Party" none 7 none (some "tokC") =
      (Except.error (403, "Admin only"), st1) ∧
    ({ token := "tokM", is_admin := false, name := "Bob",
       email := "bob@club.io" } : AuthResponse).is_admin = false :=
  ⟨by decide, rfl,
   (missing_admin_flag st1 "tokC" u2 (by decide) rfl).1 "X" none,
   (missing_admin_flag st1 "tokC" u2 (by decide) rfl).2.1 "Party" none 7 none,
   (missing_admin_flag st1 "tokC" u2 (by decide) rfl).2.2 (fun s => s) "static_salt" "tokM"
     "bob@club.io" "pw2"
     { token := "tokM", is_admin := false, name := "Bob", email := "bob@club.io" }
     { st1 with users := [u1, pushSession "tokM" u2] }
     (by decide) (by rfl)⟩

/-- C6: a live session token survives every request except a logout
carrying exactly that token — registration and login only append tokens,
the admin-gated creations and the read-only endpoints never touch any
sessions array, a logout with a different (or absent) token filters only
that other token, and no handler consults `SESSION_TTL_MINUTES`. -/
theorem token_never_removed (sh : String → String) (salt : String) (op : Op) (st : St)
    (tok : String) (hpres : tokenPresent st tok) (hnot : op ≠ Op.opLogout (some tok)) :
    tokenPresent (step sh salt op st) tok := by
  cases op with
  | opRegister n e p f =>
    show tokenPresent (register sh salt f st n e p).2 tok
    unfold register
    by_cases hdup : (get_user_by_email st e).isSome = true
    · rw [if_pos hdup]
      exact hpres
    · rw [if_neg hdup]
      rcases hpres with ⟨u, hu, ht⟩
      exact sessions_present_updateFirst _ _ tok
        (fun v hv => mem_sessions_pushSession tok f v hv) _
        ⟨u, List.mem_append_left _ hu, ht⟩
  | opLogin e p f =>
    show tokenPresent (login sh salt f st e p).2 tok
    unfold login
    split
    · exact hpres
    · split
      · rcases hpres with ⟨w, hw, ht⟩
        exact sessions_present_updateFirst _ _ tok
          (fun v hv => mem_sessions_pushSession tok f v hv) _ ⟨w, hw, ht⟩
      · exact hpres
  | opLogout t =>
    show tokenPresent (logout st t).2 tok
    unfold logout
    split
    · exact hpres
    · next u heq =>
      have hne : tok ≠ t.getD "" := by
        intro hEq
        cases t with
        | none =>
          rw [get_user_by_token] at heq
          simp at heq
        | some t' =>
          apply hnot
          have ht' : tok = t' := hEq
          rw [ht']
      rcases hpres with ⟨w, hw, ht⟩
      exact sessions_present_updateFirst _ _ tok
        (fun v hv => mem_sessions_pullSession tok (t.getD "") v hne hv) _ ⟨w, hw, ht⟩
  | opCreateClub n d t =>
    show tokenPresent (create_club st n d t).2 tok
    unfold create_club
    split
    · exact hpres
    · split
      · exact hpres
      · exact hpres
  | opCreateEvent ti d da c t =>
    show tokenPresent (create_event st ti d da c t).2 tok
    unfold create_event
    split
    · exact hpres
    · split
      · exact hpres
      · exact hpres
  | opListClubs => exact hpres
  | opListEvents => exact hpres
  | opReadRoot => exact hpres
  | opTest env => exact hpres

/-- C6 witness: `tokA` is live in `st1` and survives a logout carrying the
different token `tokC`. -/
theorem token_never_removed_witness :
    tokenPresent st1 "tokA" ∧
    Op.opLogout (some "tokC") ≠ Op.opLogout (some "tokA") ∧
    tokenPresent (step (fun s => s) "static_salt" (Op.opLogout (some "tokC")) st1) "tokA" :=
  ⟨⟨u1, by decide, by decide⟩, fun h => by simp at h,
   token_never_removed (fun s => s) "static_salt" (Op.opLogout (some "tokC")) st1 "tokA"
     ⟨u1, by decide, by decide⟩ (fun h => by simp at h)⟩

/-- C7: in the GET /api/clubs and GET /api/events responses, every stored
document (all of which carry a database `_id`) appears with the `_id` key
removed, an `id` key holding the string rendering of that native id, and
every other field unchanged. -/
theorem list_rename_id (st : St) :
    (∀ d ∈ st.clubs, ∀ v, dget d "_id" = some v →
      popRenameId d ∈ list_clubs st ∧
      dget (popRenameId d) "_id" = none ∧
      dget (popRenameId d) "id" = some (Val.vstr (pyStr v)) ∧
      ∀ k, k ≠ "_id" → k ≠ "id" → dget (popRenameId d) k = dget d k) ∧
    (∀ d ∈ st.events, ∀ v, dget d "_id" = some v →
      popRenameId d ∈ list_events st ∧
      dget (popRenameId d) "_id" = none ∧
      dget (popRenameId d) "id" = some (Val.vstr (pyStr v)) ∧
      ∀ k, k ≠ "_id" → k ≠ "id" → dget (popRenameId d) k = dget d k) := by
  constructor <;> intro d hd v hv <;>
    exact ⟨List.mem_map_of_mem _ hd, (popRenameId_spec d v hv).1,
      (popRenameId_spec d v hv).2.1, (popRenameId_spec d v hv).2.2⟩

/-- A stored club document sample. -/
def dClub : Doc :=
  [("_id", Val.oid 3), ("name", Val.vstr "Chess"), ("created_by", Val.vstr "ann@club.io")]

/-- A stored event document sample. -/
def dEvent : Doc :=
  [("_id", Val.oid 4), ("title", Val.vstr "Party")]

/-- A state with one stored club and one stored event document, used to
exercise the listing endpoints. -/
def st2 : St := { users := [], clubs := [dClub], events := [dEvent], nextId := 5 }

/-- C7 witness: the stored club and event of `st2` are listed without
`_id`, with `id` = "3" resp. "4", and with their `name`/`title` fields
intact. -/
theorem list_rename_id_witness :
    (dClub ∈ st2.clubs ∧
     dget dClub "_id" = some (Val.oid 3) ∧
     popRenameId dClub ∈ list_clubs st2 ∧
     dget (popRenameId dClub) "_id" = none ∧
     dget (popRenameId dClub) "id" = some (Val.vstr (pyStr (Val.oid 3))) ∧
     dget (popRenameId dClub) "name" = dget dClub "name") ∧
    (dget (popRenameId dEvent) "_id" = none ∧
     dget (popRenameId dEvent) "id" = some (Val.vstr (pyStr (Val.oid 4)))) :=
  ⟨⟨by decide, rfl,
    ((list_rename_id st2).1 dClub (by decide) (Val.oid 3) rfl).1,
    ((list_rename_id st2).1 dClub (by decide) (Val.oid 3) rfl).2.1,
    ((list_rename_id st2).1 dClub (by decide) (Val.oid 3) rfl).2.2.1,
    ((list_rename_id st2).1 dClub (by decide) (Val.oid 3) rfl).2.2.2 "name"
      (by decide) (by decide)⟩,
   ⟨((list_rename_id st2).2 dEvent (by decide) (Val.oid 4) rfl).2.1,
    ((list_rename_id st2).2 dEvent (by decide) (Val.oid 4) rfl).2.2.1⟩⟩

/-- C8: the diagnostic GET /test handler is total — it yields a response
document for every database outcome, always carrying
`backend = "✅ Running"` — and when the collection listing raises, the
whole response consists of the backend banner plus a `database` field
holding the truncated error string, returned normally. -/
theorem test_database_spec :
    (∀ env : DbEnv, dget (test_database env) "backend" = some (Val.vstr "✅ Running")) ∧
    (∀ env e, env.dbAvail = true → env.listCollections = Except.error e →
      test_database env =
        [("backend", Val.vstr "✅ Running"),
         ("database", Val.vstr ("❌ Error: " ++ e.take 50))]) := by
  constructor
  · intro env
    unfold test_database
    cases hav : env.dbAvail
    · rfl
    · cases hlc : env.listCollections
      · rfl
      · rfl
  · intro env e hav herr
    unfold test_database
    rw [hav, herr]
    rfl

/-- C8 witness: a probe whose collection listing raises "boom" produces
the two-field error document with status fields intact. -/
theorem test_database_spec_witness :
    ({ dbAvail := true, urlSet := false, dbName := "app",
       listCollections := Except.error "boom" } : DbEnv).dbAvail = true ∧
    ({ dbAvail := true, urlSet := false, dbName := "app",
       listCollections := Except.error "boom" } : DbEnv).listCollections =
      Except.error "boom" ∧
    test_database { dbAvail := true, urlSet := false, dbName := "app",
                    listCollections := Except.error "boom" } =
      [("backend", Val.vstr "✅ Running"),
       ("database", Val.vstr ("❌ Error: " ++ "boom".take 50))] :=
  ⟨rfl, rfl,
   test_database_spec.2
     { dbAvail := true, urlSet := false, dbName := "app",
       listCollections := Except.error "boom" } "boom" rfl rfl⟩
